import Mathlib

/-!
# Verification of the recall-ai upload-to-flashcards pipeline

Shallow embedding of the repository's Cloud Function `onFileUpload`
(functions/src/index.ts) and of the client-side export switch
(`handleExport` in recall-ai-app/src/app/deck/[deckId]/page.tsx).

Conventions of the embedding:
* JavaScript strings are modelled as Lean `String` (JS `length` counts
  UTF-16 units, Lean counts characters; all claims live in the regime
  where the two agree).
* `undefined`/missing JSON fields are `Option`; JS `x || d` defaulting
  (which also replaces the empty string, since `""` is falsy) is `jsOr`.
* The Firestore side effects of one invocation are reified in a
  `PipelineResult`: the list of direct document writes (`.set` calls on
  `decks/{id}`), the list of operations added to the single write batch
  (paths `decks/{id}/cards/{cardId}`), whether that batch was committed,
  and whether the outbound AI HTTP request was issued.  Database writes
  themselves are assumed to succeed (their own failure handling is
  best-effort logging in the source and is outside every claim).
* `admin.firestore.FieldValue.serverTimestamp()` sentinels are omitted
  from the record data: they carry no information decidable here.
* `Date.now()` is the environment field `now`, used for every call site
  (the source calls it up to three times per run; the claims do not
  distinguish those instants).
-/

/-! ## JavaScript string primitives, embedded structurally -/

/-- `String.prototype.split` with a one-character separator, on char lists:
`"".split(c) = [""]`, separators at the ends produce empty groups. -/
def splitChars (sep : Char) : List Char → List (List Char)
  | [] => [[]]
  | c :: cs =>
    let r := splitChars sep cs
    if c = sep then [] :: r
    else
      match r with
      | [] => [[c]]
      | g :: gs => (c :: g) :: gs

/-- `s.split(sep)` for a single-character separator. -/
def jsSplit (s : String) (sep : Char) : List String :=
  (splitChars sep s.data).map String.mk

/-- Digits of a JS `parseInt` scan: the maximal leading run of decimal digits. -/
def leadingDigits : List Char → List Char
  | [] => []
  | c :: cs => if c.isDigit then c :: leadingDigits cs else []

/-- Value of a digit run. -/
def digitsToNat (ds : List Char) : Nat :=
  ds.foldl (fun acc c => acc * 10 + (c.toNat - 48)) 0

/-- JS `parseInt(s)` (decimal): skip whitespace, optional sign, read leading
digits; `none` models `NaN` (no digits).  The hex/octal prefixes of real
`parseInt` are irrelevant to decimal byte-size strings and not modelled. -/
def jsParseInt (s : String) : Option Int :=
  let cs := s.data.dropWhile Char.isWhitespace
  let signed : Int × List Char :=
    match cs with
    | '-' :: r => (-1, r)
    | '+' :: r => (1, r)
    | r => (1, r)
  let ds := leadingDigits signed.2
  if ds = [] then none else some (signed.1 * (digitsToNat ds : Int))

/-- JS `x || d` on an optional string field: `undefined` and `""` are falsy. -/
def jsOr (o : Option String) (d : String) : String :=
  match o with
  | none => d
  | some s => if s = "" then d else s

/-- `ct.startsWith(p)`. -/
def ctStartsWith (ct p : String) : Bool :=
  p.data.isPrefixOf ct.data

/-- The group after the last `'.'` of the lowercased path, dot included —
`filePath.toLowerCase().substring(filePath.lastIndexOf('.'))`.  When there
is no dot, `lastIndexOf` is `-1` and `substring(-1)` clamps to the whole
string, exactly as in JS. -/
def suffixFromLastDot : List Char → Option (List Char)
  | [] => none
  | c :: cs =>
    match suffixFromLastDot cs with
    | some suf => some suf
    | none => if c = '.' then some (c :: cs) else none

/-- `filePath.toLowerCase().substring(filePath.lastIndexOf('.'))`. -/
def jsExtension (p : String) : String :=
  let low := p.data.map Char.toLower
  match suffixFromLastDot low with
  | some suf => String.mk suf
  | none => String.mk low

/-- Right-to-left `Array.prototype.pop()` on a split result: the last
segment, `""` when the list is empty (split never returns an empty list). -/
def lastSegment (parts : List String) : String :=
  parts.reverse.headD ""

/-! ## Storage event and validation (lines 13–91 of the function) -/

/-- The storage-finalize event payload fields the function reads. -/
structure StorageObject where
  name : Option String
  contentType : Option String
  size : Option String
  bucket : String
deriving DecidableEq, Repr

/-- Upload kind after validation. -/
inductive Kind
  | documents
  | audio
deriving DecidableEq, Repr

def kindStr : Kind → String
  | .documents => "documents"
  | .audio => "audio"

/-- Lines 21–33: split the path on `'/'`; require at least four segments
with first `"uploads"`; `fileType` and `userId` are segments 1 and 2 and
must be truthy (non-empty).  Returns `(fileType, userId, fullPath)`. -/
def parsePath (name : Option String) : Option (String × String × String) :=
  match name with
  | none => none
  | some p =>
    match jsSplit p '/' with
    | p0 :: p1 :: p2 :: _ :: _ =>
      if p0 = "uploads" then
        if p1 = "" ∨ p2 = "" then none else some (p1, p2, p)
      else none
    | _ => none

def maxDocumentSize : Nat := 10 * 1024 * 1024
def maxAudioSize : Nat := 50 * 1024 * 1024

/-- Lines 47 and 69: `if (fileSize && parseInt(fileSize) > max) return;`.
An absent or empty size string is falsy and skips the check; a `NaN`
parse makes the comparison false. -/
def sizeExceeds (limit : Nat) (size : Option String) : Bool :=
  match size with
  | none => false
  | some s =>
    if s = "" then false
    else
      match jsParseInt s with
      | none => false
      | some n => n > (limit : Int)

def allowedDocumentTypes : List String := ["application/pdf", "text/plain"]
def allowedDocumentExtensions : List String := [".pdf", ".txt"]
def allowedAudioTypes : List String :=
  ["audio/mp3", "audio/wav", "audio/m4a", "audio/flac", "audio/aac",
   "audio/ogg", "audio/mpeg"]
def allowedAudioExtensions : List String :=
  [".mp3", ".wav", ".m4a", ".flac", ".aac", ".ogg"]

/-- A validated upload: what survives lines 19–91. -/
structure Validated where
  kind : Kind
  userId : String
  filePath : String
  contentType : String
deriving DecidableEq, Repr

/-- Lines 19–91: path parse, content-type presence, then the kind-specific
size / content-type / extension gates, in source order.  `none` means the
function returned with no side effect beyond a log line. -/
def validate (o : StorageObject) : Option Validated :=
  match parsePath o.name with
  | none => none
  | some (ft, uid, p) =>
    match o.contentType with
    | none => none
    | some ct =>
      if ct = "" then none
      else if ft = "documents" then
        if sizeExceeds maxDocumentSize o.size then none
        else if ¬ (allowedDocumentTypes.any fun t => ctStartsWith ct t) then none
        else if ¬ (allowedDocumentExtensions.contains (jsExtension p)) then none
        else some ⟨.documents, uid, p, ct⟩
      else if ft = "audio" then
        if sizeExceeds maxAudioSize o.size then none
        else if ¬ (allowedAudioTypes.any fun t => ctStartsWith ct t) then none
        else if ¬ (allowedAudioExtensions.contains (jsExtension p)) then none
        else some ⟨.audio, uid, p, ct⟩
      else none

/-! ## AI service response shape and the external environment -/

/-- One flashcard object in the AI response body; every field may be
absent (or empty, which JS `||` treats the same). -/
structure CardIn where
  id : Option String
  type : Option String
  question : Option String
  answer : Option String
  source_text : Option String
  difficulty : Option String
deriving DecidableEq, Repr

/-- `aiData.transcription`, consumed only for audio decks. -/
structure TransIn where
  text : String
  language : String
  duration : Nat
  segments : Option (List Unit)
deriving DecidableEq, Repr

/-- The `flashcards` field of the response: absent, present-but-not-an-array,
or an array.  An empty array is truthy in JS and reaches the length check. -/
inductive FlashField
  | missing
  | notList
  | list (cards : List CardIn)
deriving DecidableEq, Repr

/-- The parsed AI response body (`aiServiceResponse.data`). -/
structure AiData where
  success : Option Bool
  flashcards : FlashField
  model : Option String
  transcription : Option TransIn
  audio_info : Option String
deriving DecidableEq, Repr

/-- Everything external a single invocation consumes.  `docDownload`:
`none` = `file.download()` threw (inner catch, line 103); `some none` =
no first buffer; `some (some bytes)` = buffer contents (UTF-8 view, empty
string ⟺ zero length).  `pdfParse`: result of text extraction for a PDF
content type (`.error` = threw, inner catch, line 122).  `audioDownload`:
the audio-path download has no inner catch, so a failure is a throw into
the outer catch.  `aiDoc`/`aiAudio`: the `axios.post` either throws with
a message or yields a parsed body.  `now` is `Date.now()`. -/
structure Env where
  docDownload : Option (Option String)
  pdfParse : Except String String
  audioDownload : Except String Unit
  aiDoc : Except String AiData
  aiAudio : Except String AiData
  now : Nat

def minTextLength : Nat := 10
def maxTextLength : Nat := 100000

/-- Outcome of lines 95–178: everything from the download up to and
including the `axios.post`.  `aborted` = a plain `return` inside the
`try` (logged only); `threwNoAi` = an exception before the AI request
(audio download); `threwAi` = the AI request itself threw;
`responded d` = the AI request returned body `d`. -/
inductive Phase2
  | aborted
  | threwNoAi (msg : String)
  | threwAi (msg : String)
  | responded (d : AiData)
deriving DecidableEq, Repr

/-- Lines 95–178.  Document path: download (inner catch), emptiness check,
text extraction (PDF via `pdf-parse` behind an inner catch, else UTF-8),
trim/short checks, then the AI call.  The 100 000-character truncation
(line 142) only shrinks the request payload, which is not observable in
the persisted result, so it does not appear here.  Audio path: download
(no inner catch — a throw reaches the outer catch), then the AI call. -/
def phase2 (env : Env) (v : Validated) : Phase2 :=
  match v.kind with
  | .documents =>
    match env.docDownload with
    | none => .aborted
    | some b =>
      match b with
      | none => .aborted
      | some content =>
        if content = "" then .aborted
        else
          let textE : Except String String :=
            if ctStartsWith v.contentType "application/pdf" then env.pdfParse
            else Except.ok content
          match textE with
          | .error _ => .aborted
          | .ok t =>
            if t.data.all Char.isWhitespace then .aborted
            else if t.length < minTextLength then .aborted
            else
              match env.aiDoc with
              | .error e => .threwAi e
              | .ok d => .responded d
  | .audio =>
    match env.audioDownload with
    | .error e => .threwNoAi e
    | .ok _ =>
      match env.aiAudio with
      | .error e => .threwAi e
      | .ok d => .responded d

/-! ## Persisted records and the reified invocation result -/

/-- Transcription metadata as written into an audio deck (lines 220–225);
`segments_count` is `segments ? segments.length : 0`. -/
structure TransOut where
  text : String
  language : String
  duration : Nat
  segments_count : Nat
deriving DecidableEq, Repr

/-- A `decks/{deckId}` document.  `serverTimestamp` sentinels omitted.
Fields that a given branch does not write are `none`. -/
structure DeckData where
  title : String
  userId : String
  status : String
  total_cards : Nat
  source_type : Option String
  model_used : Option String
  error_message : Option String
  transcription : Option TransOut
  audio_info : Option String
deriving DecidableEq, Repr

/-- A `decks/{deckId}/cards/{cardId}` document (timestamp omitted). -/
structure CardData where
  id : String
  type : String
  question : String
  answer : String
  source_text : String
  difficulty : String
deriving DecidableEq, Repr

/-- The Firestore footprint of one invocation.  `deckWrites` are direct
`.set` calls (document path, data); `batchOps` are the `batch.set` calls
(document path, data) of the single `db.batch()`; `batchCommitted` is
whether `batch.commit()` ran; `aiCalled` is whether `axios.post` was
issued. -/
structure PipelineResult where
  deckWrites : List (String × DeckData)
  batchOps : List (String × CardData)
  batchCommitted : Bool
  aiCalled : Bool
deriving DecidableEq, Repr

def emptyResult : PipelineResult :=
  { deckWrites := [], batchOps := [], batchCommitted := false, aiCalled := false }

/-- Line 203: `filePath.split('/').pop()?.split('.')[0] || 'deck-' + Date.now()`. -/
def deckFilename (p : String) (now : Nat) : String :=
  let base := (jsSplit (lastSegment (jsSplit p '/')) '.').headD ""
  if base = "" then "deck-" ++ Nat.repr now else base

/-- Line 204: `userId + '_' + filename + '_' + Date.now()`. -/
def mkDeckId (v : Validated) (now : Nat) : String :=
  v.userId ++ "_" ++ deckFilename v.filePath now ++ "_" ++ Nat.repr now

/-- Line 208: `object.name?.split('/').pop() || 'Untitled Deck'` (and the
failed-deck variant with another fallback). -/
def deckTitle (p : String) (fallback : String) : String :=
  jsOr (some (lastSegment (jsSplit p '/'))) fallback

/-- Lines 240–248: per-card defaulting of absent/empty fields; `i` is the
0-based `forEach` index, the id fallback is `card_{i+1}`. -/
def resolveCard (i : Nat) (c : CardIn) : CardData :=
  { id := jsOr c.id ("card_" ++ Nat.repr (i + 1))
    type := jsOr c.type "qa"
    question := jsOr c.question "No question generated"
    answer := jsOr c.answer "No answer provided"
    source_text := jsOr c.source_text "Source text not available"
    difficulty := jsOr c.difficulty "medium" }

/-- The card identifiers actually used as document ids, in order. -/
def resolvedIds (cards : List CardIn) : List String :=
  cards.enum.map fun ic => (resolveCard ic.1 ic.2).id

/-- Lines 207–230: the success deck document. -/
def buildDeckData (v : Validated) (d : AiData) (cards : List CardIn) : DeckData :=
  { title := deckTitle v.filePath "Untitled Deck"
    userId := v.userId
    status := "completed"
    total_cards := cards.length
    source_type := some (kindStr v.kind)
    model_used := some (jsOr d.model "gemini-1.5-pro-latest")
    error_message := none
    transcription :=
      if v.kind = .audio then
        d.transcription.map fun t =>
          { text := t.text, language := t.language, duration := t.duration
            segments_count := match t.segments with | some l => l.length | none => 0 }
      else none
    audio_info :=
      if v.kind = .audio ∧ d.transcription.isSome then d.audio_info else none }

/-- Lines 202–256: deck `.set`, then one batch with one `batch.set` per
flashcard at `decks/{deckId}/cards/{resolved id}`, then `batch.commit()`. -/
def successResult (env : Env) (v : Validated) (d : AiData)
    (cards : List CardIn) : PipelineResult :=
  let deckId := mkDeckId v env.now
  { deckWrites := [("decks/" ++ deckId, buildDeckData v d cards)]
    batchOps := cards.enum.map fun ic =>
      let cd := resolveCard ic.1 ic.2
      ("decks/" ++ deckId ++ "/cards/" ++ cd.id, cd)
    batchCommitted := true
    aiCalled := true }

/-- Lines 258–280 (outer catch): the best-effort failed-deck record, id
suffixed `_failed`, zero cards, the thrown message as `error_message`. -/
def failedResult (v : Validated) (now : Nat) (msg : String)
    (ai : Bool) : PipelineResult :=
  let deckId := v.userId ++ "_" ++ deckFilename v.filePath now ++ "_" ++
    Nat.repr now ++ "_failed"
  { deckWrites := [("decks/" ++ deckId,
      { title := deckTitle v.filePath "Failed Processing"
        userId := v.userId
        status := "failed"
        total_cards := 0
        source_type := none
        model_used := none
        error_message := some msg
        transcription := none
        audio_info := none })]
    batchOps := []
    batchCommitted := false
    aiCalled := ai }

/-- The whole of `onFileUpload` as a function from the event and the
external world to its Firestore footprint.  Response-body validation
(line 190: `!aiData.success || !aiData.flashcards || !Array.isArray(...)`)
and the empty-list soft failure (line 197) are plain returns inside the
`try`, hence record nothing. -/
def runPipeline (env : Env) (o : StorageObject) : PipelineResult :=
  match validate o with
  | none => emptyResult
  | some v =>
    match phase2 env v with
    | .aborted => emptyResult
    | .threwNoAi e => failedResult v env.now e false
    | .threwAi e => failedResult v env.now e true
    | .responded d =>
      match d.flashcards with
      | .list cards =>
        if d.success = some true then
          if cards.isEmpty then { emptyResult with aiCalled := true }
          else successResult env v d cards
        else { emptyResult with aiCalled := true }
      | _ => { emptyResult with aiCalled := true }

/-! ## Client-side export switch (`handleExport`, deck detail page) -/

/-- A card as the deck page holds it after the Firestore fetch
(`{ id: doc.id, ...doc.data() }`).  `question` and `answer` are present in
every claim's scenario; `type` and `difficulty` may be absent at runtime
even though the TS interface declares `type` required — an absent field
reads as `undefined`. -/
structure ExportCard where
  id : String
  question : String
  answer : String
  type : Option String
  difficulty : Option String
deriving DecidableEq, Repr

/-- `cards.filter(card => selectedCards.has(card.id))`: selection keeps the
deck order. -/
def selectCards (cards : List ExportCard) (sel : List String) : List ExportCard :=
  cards.filter fun c => sel.contains c.id

/-- `.replace(/"/g, '""')`: every double quote doubled. -/
def escQuotes : List Char → List Char
  | [] => []
  | c :: cs => if c = '"' then '"' :: '"' :: escQuotes cs else c :: escQuotes cs

def csvEscape (s : String) : String := String.mk (escQuotes s.data)

/-- A JS template literal `${x}` on a possibly-absent field: `undefined`
stringifies to the text `undefined`. -/
def jsUndef : Option String → String
  | none => "undefined"
  | some s => s

/-- `Array.prototype.join(sep)`. -/
def joinWith (sep : String) : List String → String
  | [] => ""
  | [x] => x
  | x :: y :: xs => x ++ sep ++ joinWith sep (y :: xs)

/-- One general-CSV row (page line 123): quoted question and answer with
quote doubling, then `card.type` verbatim (no default!) and
`card.difficulty || 'medium'`. -/
def csvRow (c : ExportCard) : String :=
  "\"" ++ csvEscape c.question ++ "\",\"" ++ csvEscape c.answer ++ "\",\"" ++
    jsUndef c.type ++ "\",\"" ++ jsOr c.difficulty "medium" ++ "\""

/-- General CSV export (page lines 119–124): header plus newline-joined rows. -/
def csvExport (cards : List ExportCard) : String :=
  "Front,Back,Type,Difficulty\n" ++ joinWith "\n" (cards.map csvRow)

/-- Quizlet-text export (page lines 136–139): tab-joined question/answer,
newline-joined, no header. -/
def quizletTxtExport (cards : List ExportCard) : String :=
  joinWith "\n" (cards.map fun c => c.question ++ "\t" ++ c.answer)

/-! ## Concrete fixtures for witnesses and counterexamples -/

/-- A well-formed document upload event. -/
def docObj : StorageObject :=
  ⟨some "uploads/documents/alice/notes.txt", some "text/plain", none, "bkt"⟩

/-- Its validated form. -/
def vDoc : Validated :=
  ⟨.documents, "alice", "uploads/documents/alice/notes.txt", "text/plain"⟩

/-- A document upload whose path has five `/`-segments. -/
def deepObj : StorageObject :=
  ⟨some "uploads/documents/alice/sub/notes.txt", some "text/plain", none, "bkt"⟩

def cardFull : CardIn := ⟨some "c1", some "qa", some "Q1", some "A1", none, none⟩
def cardBare : CardIn := ⟨none, none, none, none, none, none⟩
def cardDup1 : CardIn := ⟨some "dup", some "qa", some "Qa", some "Aa", none, none⟩
def cardDup2 : CardIn := ⟨some "dup", some "qa", some "Qb", some "Ab", none, none⟩

def okAi : AiData := ⟨some true, .list [cardFull, cardBare], none, none, none⟩
def dupAi : AiData := ⟨some true, .list [cardDup1, cardDup2], none, none, none⟩
def emptyAi : AiData := ⟨some true, .list [], none, none, none⟩

/-- Environment for a fully successful document run. -/
def okEnv : Env := ⟨some (some "0123456789abc"), .ok "", .ok (), .ok okAi, .ok okAi, 7⟩

/-- Same but the AI returns two cards with a duplicated id. -/
def dupEnv : Env := ⟨some (some "0123456789abc"), .ok "", .ok (), .ok dupAi, .ok dupAi, 7⟩

/-- Same but the AI returns an explicitly empty flashcard list. -/
def emptyListEnv : Env :=
  ⟨some (some "0123456789abc"), .ok "", .ok (), .ok emptyAi, .ok emptyAi, 7⟩

/-- The document download yields an empty buffer (extraction failure). -/
def emptyDownloadEnv : Env :=
  ⟨some (some ""), .ok "", .ok (), .ok okAi, .ok okAi, 7⟩

/-- The AI HTTP call throws. -/
def aiThrowEnv : Env :=
  ⟨some (some "0123456789abc"), .ok "", .ok (), .error "boom", .error "boom", 7⟩

/-- An upload whose path does not start a valid `uploads/...` shape. -/
def badObj : StorageObject := ⟨some "notes.txt", some "text/plain", none, "bkt"⟩

/-- A document upload declaring a byte size just over the 10 MiB ceiling. -/
def bigObj : StorageObject :=
  ⟨some "uploads/documents/alice/notes.txt", some "text/plain",
   some "10485761", "bkt"⟩

/-- Export card with absent type and difficulty fields. -/
def qCard : ExportCard := ⟨"c1", "Q1\"x", "A1", none, none⟩

/-- The same card with its type present. -/
def qCardTyped : ExportCard := ⟨"c1", "Q1\"x", "A1", some "qa", none⟩

def exCard1 : ExportCard := ⟨"a", "Q1", "A1", some "qa", none⟩
def exCard2 : ExportCard := ⟨"b", "Q2", "A2", some "qa", none⟩

/-! ## Helper lemmas -/

/-- Left cancellation for string append. -/
theorem strAppend_cancel_left {a x y : String} (h : a ++ x = a ++ y) : x = y := by
  apply String.ext
  have h2 := congrArg String.data h
  rw [String.data_append, String.data_append] at h2
  exact List.append_cancel_left h2

/-- A list with a repeated entry dedups to something strictly shorter. -/
theorem dedup_length_lt_of_dup {α : Type} [DecidableEq α] {l : List α}
    {i j : Nat} {x : α} (hij : i ≠ j) (hi : l[i]? = some x) (hj : l[j]? = some x) :
    l.dedup.length < l.length := by
  obtain ⟨hi', hie⟩ := List.getElem?_eq_some_iff.mp hi
  obtain ⟨hj', hje⟩ := List.getElem?_eq_some_iff.mp hj
  have hnd : ¬ l.Nodup := by
    intro nd
    have hinj := List.nodup_iff_injective_getElem.mp nd
    have : (⟨i, hi'⟩ : Fin l.length) = ⟨j, hj'⟩ := hinj (by simp [hie, hje])
    exact hij (congrArg Fin.val this)
  have hsub := List.dedup_sublist l
  have hle := hsub.length_le
  rcases Nat.lt_or_ge l.dedup.length l.length with h | h
  · exact h
  · exact absurd (List.dedup_eq_self.mp
      (hsub.eq_of_length (Nat.le_antisymm hle h))) hnd

/-- If validation and extraction succeed and the AI body is a successful
non-empty list, the run is exactly the success footprint. -/
theorem runPipeline_success_eq {env : Env} {o : StorageObject} {v : Validated}
    {d : AiData} {cards : List CardIn}
    (hv : validate o = some v) (hp : phase2 env v = .responded d)
    (hs : d.success = some true) (hf : d.flashcards = .list cards)
    (hne : cards ≠ []) :
    runPipeline env o = successResult env v d cards := by
  simp only [runPipeline, hv, hp, hf, hs]
  simp [hne]

/-- The batch document paths of a success run, as a map over the resolved
card identifiers. -/
theorem successResult_batchPaths (env : Env) (v : Validated) (d : AiData)
    (cards : List CardIn) :
    (successResult env v d cards).batchOps.map Prod.fst
      = (resolvedIds cards).map
          (fun s => "decks/" ++ mkDeckId v env.now ++ "/cards/" ++ s) := by
  simp only [successResult, resolvedIds, List.map_map]
  rfl

/-! ## Claim C3 -/

/-- C3, counterexample: the source accepts any path with at least four
`/`-segments, so an object whose path splits into five segments — hence
does not parse into exactly the four claimed segments — is still processed
and creates a Deck and Flashcard records. -/
theorem pathFiveSegments_creates_records :
    (jsSplit "uploads/documents/alice/sub/notes.txt" '/').length = 5 ∧
    (runPipeline okEnv deepObj).deckWrites ≠ [] ∧
    (runPipeline okEnv deepObj).batchOps ≠ [] := by decide

/-- C3, amended: for every uploaded object whose path does not split, on
`/`, into at least four segments with first segment `uploads` and
non-empty kind and userId segments, or whose kind segment is neither
`documents` nor `audio`, processing aborts with no side effect: no Deck
and no Flashcard record is created. -/
theorem malformedPath_no_side_effects (env : Env) (o : StorageObject)
    (h : parsePath o.name = none ∨
      ∃ ft uid p, parsePath o.name = some (ft, uid, p) ∧
        ft ≠ "documents" ∧ ft ≠ "audio") :
    runPipeline env o = emptyResult := by
  have hv : validate o = none := by
    rcases h with h | ⟨ft, uid, p, hp, hd, ha⟩
    · unfold validate; rw [h]
    · unfold validate
      rw [hp]
      cases hct : o.contentType with
      | none => rfl
      | some ct => simp [hd, ha]
  simp [runPipeline, hv]

/-- C3, amended, witness at a path with a single segment. -/
theorem malformedPath_no_side_effects_witness :
    parsePath badObj.name = none ∧ runPipeline okEnv badObj = emptyResult :=
  ⟨by decide, malformedPath_no_side_effects okEnv badObj (Or.inl (by decide))⟩

/-! ## Claim C4 -/

/-- C4: for every document upload whose declared byte size parses to more
than 10 MiB, and every audio upload whose declared size parses to more
than 50 MiB, the run aborts during validation: the result is empty — no
record persisted — and in particular no AI request was issued. -/
theorem oversize_aborts_before_ai (env : Env) (o : StorageObject)
    (ft uid p s : String) (n : Int)
    (hp : parsePath o.name = some (ft, uid, p))
    (hs : o.size = some s) (hn : jsParseInt s = some n)
    (hlim : (ft = "documents" ∧ n > (maxDocumentSize : Int)) ∨
            (ft = "audio" ∧ n > (maxAudioSize : Int))) :
    runPipeline env o = emptyResult ∧ (runPipeline env o).aiCalled = false := by
  have hne : s ≠ "" := by
    intro h
    rw [h] at hn
    simp [jsParseInt, leadingDigits] at hn
  have hv : validate o = none := by
    unfold validate
    rw [hp]
    cases hct : o.contentType with
    | none => rfl
    | some ct =>
      rcases hlim with ⟨hft, hgt⟩ | ⟨hft, hgt⟩ <;> subst hft
      · have hsz : sizeExceeds maxDocumentSize o.size = true := by
          rw [hs]; simp [sizeExceeds, hne, hn, hgt]
        simp [hsz]
      · have hsz : sizeExceeds maxAudioSize o.size = true := by
          rw [hs]; simp [sizeExceeds, hne, hn, hgt]
        simp [hsz]
  have hrun : runPipeline env o = emptyResult := by simp [runPipeline, hv]
  exact ⟨hrun, by rw [hrun]; rfl⟩

/-- C4, witness: a document upload declaring 10 MiB + 1 bytes is dropped
with no writes and no AI call. -/
theorem oversize_aborts_before_ai_witness :
    (parsePath bigObj.name =
        some ("documents", "alice", "uploads/documents/alice/notes.txt") ∧
      bigObj.size = some "10485761" ∧
      jsParseInt "10485761" = some 10485761 ∧ (10485761 : Int) > (maxDocumentSize : Int)) ∧
    (runPipeline okEnv bigObj = emptyResult ∧
      (runPipeline okEnv bigObj).aiCalled = false) :=
  ⟨⟨by decide, rfl, by decide, by decide⟩,
    oversize_aborts_before_ai okEnv bigObj "documents" "alice"
      "uploads/documents/alice/notes.txt" "10485761" 10485761
      (by decide) rfl (by decide) (Or.inl ⟨rfl, by decide⟩)⟩

/-! ## Claim C10 -/

/-- C10: when the event's byte-size field is absent or the empty string,
the size-ceiling guard evaluates to false for every limit — both kinds
included — and the validation outcome is decided purely by the
content-type and extension checks. -/
theorem absent_size_skips_size_check (o : StorageObject)
    (ft uid p ct : String)
    (hp : parsePath o.name = some (ft, uid, p))
    (hct : o.contentType = some ct) (hctne : ct ≠ "")
    (hsz : o.size = none ∨ o.size = some "") :
    (∀ limit : Nat, sizeExceeds limit o.size = false) ∧
    (ft = "documents" →
      (validate o).isSome =
        ((allowedDocumentTypes.any fun t => ctStartsWith ct t) &&
          allowedDocumentExtensions.contains (jsExtension p))) ∧
    (ft = "audio" →
      (validate o).isSome =
        ((allowedAudioTypes.any fun t => ctStartsWith ct t) &&
          allowedAudioExtensions.contains (jsExtension p))) := by
  have hsk : ∀ limit : Nat, sizeExceeds limit o.size = false := by
    intro limit
    rcases hsz with h | h <;> rw [h] <;> simp [sizeExceeds]
  refine ⟨hsk, ?_, ?_⟩
  · intro hft
    subst hft
    unfold validate
    rw [hp, hct]
    cases hA : (allowedDocumentTypes.any fun t => ctStartsWith ct t) <;>
      by_cases hB : jsExtension p ∈ allowedDocumentExtensions <;>
        simp [hA, hB, hctne, hsk]
  · intro hft
    subst hft
    unfold validate
    rw [hp, hct]
    cases hA : (allowedAudioTypes.any fun t => ctStartsWith ct t) <;>
      by_cases hB : jsExtension p ∈ allowedAudioExtensions <;>
        simp [hA, hB, hctne, hsk]

/-- C10, witness: an upload with no declared size passes or fails on the
type and extension checks alone. -/
theorem absent_size_skips_size_check_witness :
    (parsePath docObj.name =
        some ("documents", "alice", "uploads/documents/alice/notes.txt") ∧
      docObj.contentType = some "text/plain" ∧ docObj.size = none) ∧
    (∀ limit : Nat, sizeExceeds limit docObj.size = false) ∧
    ("documents" = "documents" →
      (validate docObj).isSome =
        ((allowedDocumentTypes.any fun t => ctStartsWith "text/plain" t) &&
          allowedDocumentExtensions.contains
            (jsExtension "uploads/documents/alice/notes.txt"))) :=
  ⟨⟨by decide, rfl, rfl⟩,
    (absent_size_skips_size_check docObj "documents" "alice"
      "uploads/documents/alice/notes.txt" "text/plain"
      (by decide) rfl (by decide) (Or.inl rfl)).1,
    (absent_size_skips_size_check docObj "documents" "alice"
      "uploads/documents/alice/notes.txt" "text/plain"
      (by decide) rfl (by decide) (Or.inl rfl)).2.1⟩

/-! ## Claim C5 -/

/-- C5: when the AI response is well-formed and successful but its
flashcard list is explicitly empty, the run persists nothing — no Deck
(neither completed nor failed) and no Flashcard — although the AI call
was made: a soft failure. -/
theorem emptyFlashcards_soft_failure (env : Env) (o : StorageObject)
    (v : Validated) (d : AiData)
    (hv : validate o = some v) (hp : phase2 env v = .responded d)
    (hs : d.success = some true) (hf : d.flashcards = .list []) :
    runPipeline env o =
      { deckWrites := [], batchOps := [], batchCommitted := false,
        aiCalled := true } := by
  simp only [runPipeline, hv, hp, hf, hs]
  simp [emptyResult]

/-- C5, witness: a successful document run whose AI body carries an empty
list leaves the database untouched. -/
theorem emptyFlashcards_soft_failure_witness :
    (validate docObj = some vDoc ∧
      phase2 emptyListEnv vDoc = .responded emptyAi ∧
      emptyAi.success = some true ∧ emptyAi.flashcards = .list []) ∧
    runPipeline emptyListEnv docObj =
      { deckWrites := [], batchOps := [], batchCommitted := false,
        aiCalled := true } :=
  ⟨⟨by decide, by decide, rfl, rfl⟩,
    emptyFlashcards_soft_failure emptyListEnv docObj vDoc emptyAi
      (by decide) (by decide) rfl rfl⟩

/-! ## Claim C6 -/

/-- C6: the persisted card record fills each missing field with its fixed
default — type `qa`, difficulty `medium`, the sentinel question/answer
placeholders, and the positional id `card_{i+1}` for the card at 0-based
position `i`. -/
theorem resolveCard_defaults (i : Nat) (c : CardIn) :
    (c.type = none → (resolveCard i c).type = "qa") ∧
    (c.difficulty = none → (resolveCard i c).difficulty = "medium") ∧
    (c.question = none → (resolveCard i c).question = "No question generated") ∧
    (c.answer = none → (resolveCard i c).answer = "No answer provided") ∧
    (c.id = none → (resolveCard i c).id = "card_" ++ Nat.repr (i + 1)) := by
  refine ⟨?_, ?_, ?_, ?_, ?_⟩ <;> intro h <;> simp [resolveCard, jsOr, h]

/-- C6, witness: the all-absent card at position 1 resolves to the
defaults, with id `card_2`. -/
theorem resolveCard_defaults_witness :
    cardBare.type = none ∧
    (resolveCard 1 cardBare).type = "qa" ∧
    (resolveCard 1 cardBare).difficulty = "medium" ∧
    (resolveCard 1 cardBare).question = "No question generated" ∧
    (resolveCard 1 cardBare).answer = "No answer provided" ∧
    (resolveCard 1 cardBare).id = "card_" ++ Nat.repr (1 + 1) :=
  ⟨rfl,
    (resolveCard_defaults 1 cardBare).1 rfl,
    (resolveCard_defaults 1 cardBare).2.1 rfl,
    (resolveCard_defaults 1 cardBare).2.2.1 rfl,
    (resolveCard_defaults 1 cardBare).2.2.2.1 rfl,
    (resolveCard_defaults 1 cardBare).2.2.2.2 rfl⟩

/-! ## Claim C7 -/

/-- C7, counterexample: exporting the single selected card
`{question: "Q1\"x", answer: "A1"}` with its other fields absent does not
produce the claimed row — `card.type` has no default in the export switch,
so an absent type renders as the literal text `undefined`, not `qa`. -/
theorem csv_absent_type_renders_undefined :
    csvExport (selectCards [qCard] ["c1"])
        ≠ "Front,Back,Type,Difficulty\n\"Q1\"\"x\",\"A1\",\"qa\",\"medium\"" ∧
    csvExport (selectCards [qCard] ["c1"])
        = "Front,Back,Type,Difficulty\n\"Q1\"\"x\",\"A1\",\"undefined\",\"medium\"" := by
  decide

/-- C7, amended: general CSV export emits the header
`Front,Back,Type,Difficulty` and one row per selected card, embedded
double quotes escaped by doubling; the Type column carries the card's
type verbatim (no default) and the Difficulty column defaults to
`medium`; in particular, for the card `{question: "Q1\"x", answer: "A1",
type: "qa"}` (difficulty absent) the output row is
`"Q1""x","A1","qa","medium"`. -/
theorem csv_quote_doubling_row :
    csvExport (selectCards [qCardTyped] ["c1"])
      = "Front,Back,Type,Difficulty\n\"Q1\"\"x\",\"A1\",\"qa\",\"medium\"" := by
  decide

/-! ## Claim C8 -/

/-- C8: exporting two selected cards to Quizlet text yields exactly two
tab-joined question/answer lines separated by one newline, with no
header. -/
theorem quizletTxt_two_lines (cards : List ExportCard) (sel : List String)
    (c1 c2 : ExportCard) (h : selectCards cards sel = [c1, c2]) :
    quizletTxtExport (selectCards cards sel)
      = c1.question ++ "\t" ++ c1.answer ++ "\n" ++
        (c2.question ++ "\t" ++ c2.answer) := by
  rw [h]
  rfl

/-- C8, witness at two concrete selected cards. -/
theorem quizletTxt_two_lines_witness :
    selectCards [exCard1, exCard2] ["a", "b"] = [exCard1, exCard2] ∧
    quizletTxtExport (selectCards [exCard1, exCard2] ["a", "b"])
      = exCard1.question ++ "\t" ++ exCard1.answer ++ "\n" ++
        (exCard2.question ++ "\t" ++ exCard2.answer) :=
  ⟨by decide,
    quizletTxt_two_lines [exCard1, exCard2] ["a", "b"] exCard1 exCard2 (by decide)⟩

/-! ## Claim C1 -/

/-- C1, counterexample: on a fully successful run the Deck document is
persisted by a direct `.set` that is not an operation of the card batch —
its path does not occur among the batch operations — so it is false that
all of these writes are applied under one atomic batch commit. -/
theorem deckWrite_outside_batch :
    (runPipeline okEnv docObj).deckWrites.map Prod.fst = ["decks/alice_notes_7"] ∧
    (((runPipeline okEnv docObj).batchOps.map Prod.fst).contains
        "decks/alice_notes_7") = false ∧
    (runPipeline okEnv docObj).batchCommitted = true := by decide

/-- C1, amended: for every successfully validated upload whose AI response
is successful and contains K well-formed flashcards (non-empty, with
pairwise-distinct resolved identifiers), exactly one Deck record with
`total_cards = K` and status `completed` is persisted, and exactly K
Flashcard documents are written; the K card writes are applied under one
atomic batch commit, while the Deck record write is a separate, preceding
`.set` outside the batch. -/
theorem success_persists_deck_and_batched_cards (env : Env) (o : StorageObject)
    (v : Validated) (d : AiData) (cards : List CardIn)
    (hv : validate o = some v) (hp : phase2 env v = .responded d)
    (hs : d.success = some true) (hf : d.flashcards = .list cards)
    (hne : cards ≠ []) (hnd : (resolvedIds cards).Nodup) :
    (runPipeline env o).deckWrites.length = 1 ∧
    (∀ w ∈ (runPipeline env o).deckWrites,
      w.2.status = "completed" ∧ w.2.total_cards = cards.length) ∧
    (runPipeline env o).batchOps.length = cards.length ∧
    ((runPipeline env o).batchOps.map Prod.fst).dedup.length = cards.length ∧
    (runPipeline env o).batchCommitted = true ∧
    (∀ w ∈ (runPipeline env o).deckWrites,
      w.1 ∉ (runPipeline env o).batchOps.map Prod.fst) := by
  have hr := runPipeline_success_eq hv hp hs hf hne
  rw [hr]
  have hpaths := successResult_batchPaths env v d cards
  have hinj : Function.Injective
      (fun s => "decks/" ++ mkDeckId v env.now ++ "/cards/" ++ s) :=
    fun a b hab => strAppend_cancel_left hab
  refine ⟨rfl, ?_, ?_, ?_, rfl, ?_⟩
  · intro w hw
    simp only [successResult, List.mem_singleton] at hw
    subst hw
    exact ⟨rfl, rfl⟩
  · simp [successResult]
  · rw [hpaths, List.dedup_eq_self.mpr (hnd.map hinj)]
    simp [resolvedIds]
  · intro w hw hmem
    simp only [successResult, List.mem_singleton] at hw
    subst hw
    rw [hpaths] at hmem
    obtain ⟨s, _, heq⟩ := List.mem_map.mp hmem
    have hlen := congrArg String.length heq
    simp only [String.length_append] at hlen
    have h7 : String.length "/cards/" = 7 := rfl
    omega

/-- C1, amended, witness: a concrete two-card success run. -/
theorem success_persists_deck_and_batched_cards_witness :
    (validate docObj = some vDoc ∧ phase2 okEnv vDoc = .responded okAi ∧
      okAi.success = some true ∧
      okAi.flashcards = .list [cardFull, cardBare] ∧
      [cardFull, cardBare] ≠ ([] : List CardIn) ∧
      (resolvedIds [cardFull, cardBare]).Nodup) ∧
    ((runPipeline okEnv docObj).deckWrites.length = 1 ∧
      (∀ w ∈ (runPipeline okEnv docObj).deckWrites,
        w.2.status = "completed" ∧
          w.2.total_cards = ([cardFull, cardBare] : List CardIn).length) ∧
      (runPipeline okEnv docObj).batchOps.length =
        ([cardFull, cardBare] : List CardIn).length ∧
      ((runPipeline okEnv docObj).batchOps.map Prod.fst).dedup.length =
        ([cardFull, cardBare] : List CardIn).length ∧
      (runPipeline okEnv docObj).batchCommitted = true ∧
      (∀ w ∈ (runPipeline okEnv docObj).deckWrites,
        w.1 ∉ (runPipeline okEnv docObj).batchOps.map Prod.fst)) :=
  ⟨⟨by decide, by decide, rfl, rfl, by decide, by decide⟩,
    success_persists_deck_and_batched_cards okEnv docObj vDoc okAi
      [cardFull, cardBare] (by decide) (by decide) rfl rfl
      (by decide) (by decide)⟩

/-! ## Claim C2 -/

/-- C2, counterexample: a validated document upload whose download yields
an empty buffer (an extraction failure the claim says is recorded as a
failed Deck) terminates with no write at all: no failed Deck record is
persisted. -/
theorem emptyDownload_records_nothing :
    validate docObj = some vDoc ∧
    emptyDownloadEnv.docDownload = some (some "") ∧
    (runPipeline emptyDownloadEnv docObj).deckWrites = [] ∧
    runPipeline emptyDownloadEnv docObj = emptyResult := by decide

/-- C2, amended: for a validated upload, extraction failures (failed or
empty download, failed text extraction, blank or too-short text) and
malformed AI response bodies (missing success flag, missing or non-list
flashcards field) abort with a log only — no record of any kind is
persisted.  A failed Deck — status `failed`, zero cards, the thrown
message as a human-readable error, and an identifier suffixed `_failed`
to avoid collision with a successful attempt — is recorded exactly when
an exception is thrown inside the processing block: the AI HTTP call
fails, or (audio path) the download fails. -/
theorem failedDeck_only_on_throw (env : Env) (o : StorageObject)
    (v : Validated) (hv : validate o = some v) :
    (phase2 env v = .aborted → runPipeline env o = emptyResult) ∧
    (∀ d : AiData, phase2 env v = .responded d →
      (d.success ≠ some true ∨ d.flashcards = .missing ∨ d.flashcards = .notList) →
      (runPipeline env o).deckWrites = [] ∧ (runPipeline env o).batchOps = []) ∧
    (∀ e : String,
      (phase2 env v = .threwAi e ∨ phase2 env v = .threwNoAi e) →
      ∃ did dd, (runPipeline env o).deckWrites = [(did, dd)] ∧
        dd.status = "failed" ∧ dd.total_cards = 0 ∧
        dd.error_message = some e ∧
        (∃ base, did = base ++ "_failed") ∧
        (runPipeline env o).batchOps = []) := by
  refine ⟨?_, ?_, ?_⟩
  · intro h
    simp [runPipeline, hv, h]
  · intro d hp hbad
    simp only [runPipeline, hv, hp]
    rcases hbad with hs | hf | hf
    · cases hfc : d.flashcards with
      | list cards => simp [hs]; exact ⟨rfl, rfl⟩
      | missing => exact ⟨rfl, rfl⟩
      | notList => exact ⟨rfl, rfl⟩
    · rw [hf]
      exact ⟨rfl, rfl⟩
    · rw [hf]
      exact ⟨rfl, rfl⟩
  · intro e he
    have hrun : ∃ ai : Bool, runPipeline env o = failedResult v env.now e ai := by
      rcases he with h | h
      · exact ⟨true, by simp [runPipeline, hv, h]⟩
      · exact ⟨false, by simp [runPipeline, hv, h]⟩
    obtain ⟨ai, hrun⟩ := hrun
    rw [hrun]
    exact ⟨_, _, rfl, rfl, rfl, rfl,
      ⟨"decks/" ++ (v.userId ++ "_" ++ deckFilename v.filePath env.now ++
          "_" ++ Nat.repr env.now),
        (String.append_assoc _ _ _).symm⟩, rfl⟩

/-- C2, amended, witness: the AI call throwing `boom` yields exactly one
failed-Deck write. -/
theorem failedDeck_only_on_throw_witness :
    validate docObj = some vDoc ∧
    phase2 aiThrowEnv vDoc = .threwAi "boom" ∧
    (∃ did dd, (runPipeline aiThrowEnv docObj).deckWrites = [(did, dd)] ∧
      dd.status = "failed" ∧ dd.total_cards = 0 ∧
      dd.error_message = some "boom" ∧
      (∃ base, did = base ++ "_failed") ∧
      (runPipeline aiThrowEnv docObj).batchOps = []) :=
  ⟨by decide, by decide,
    (failedDeck_only_on_throw aiThrowEnv docObj vDoc (by decide)).2.2 "boom"
      (Or.inl (by decide))⟩

/-! ## Claim C9 -/

/-- C9: when a successful AI response carries two flashcards with the same
non-empty id, the batch addresses both at the same card document path, so
the number of distinct persisted Flashcard documents is strictly smaller
than the list length recorded as the deck's `total_cards`. -/
theorem duplicateIds_collapse_documents (env : Env) (o : StorageObject)
    (v : Validated) (d : AiData) (cards : List CardIn)
    (i j : Nat) (ci cj : CardIn) (s : String)
    (hv : validate o = some v) (hp : phase2 env v = .responded d)
    (hs : d.success = some true) (hf : d.flashcards = .list cards)
    (hij : i ≠ j)
    (hci : cards[i]? = some ci) (hcj : cards[j]? = some cj)
    (hidi : ci.id = some s) (hidj : cj.id = some s) (hs0 : s ≠ "") :
    (∃ pth, ((runPipeline env o).batchOps.map Prod.fst)[i]? = some pth ∧
      ((runPipeline env o).batchOps.map Prod.fst)[j]? = some pth) ∧
    ((runPipeline env o).batchOps.map Prod.fst).dedup.length < cards.length ∧
    (∀ w ∈ (runPipeline env o).deckWrites, w.2.total_cards = cards.length) := by
  have hne : cards ≠ [] := by
    intro h
    rw [h] at hci
    simp at hci
  have hr := runPipeline_success_eq hv hp hs hf hne
  rw [hr]
  rw [successResult_batchPaths]
  have hri : (resolvedIds cards)[i]? = some s := by
    simp only [resolvedIds]
    rw [List.getElem?_map, List.getElem?_enum, hci]
    simp [resolveCard, jsOr, hidi, hs0]
  have hrj : (resolvedIds cards)[j]? = some s := by
    simp only [resolvedIds]
    rw [List.getElem?_map, List.getElem?_enum, hcj]
    simp [resolveCard, jsOr, hidj, hs0]
  have hpi : ((resolvedIds cards).map
      (fun t => "decks/" ++ mkDeckId v env.now ++ "/cards/" ++ t))[i]?
        = some ("decks/" ++ mkDeckId v env.now ++ "/cards/" ++ s) := by
    rw [List.getElem?_map, hri]
    rfl
  have hpj : ((resolvedIds cards).map
      (fun t => "decks/" ++ mkDeckId v env.now ++ "/cards/" ++ t))[j]?
        = some ("decks/" ++ mkDeckId v env.now ++ "/cards/" ++ s) := by
    rw [List.getElem?_map, hrj]
    rfl
  refine ⟨⟨_, hpi, hpj⟩, ?_, ?_⟩
  · have hdup := dedup_length_lt_of_dup hij hpi hpj
    have hlen : ((resolvedIds cards).map
        (fun t => "decks/" ++ mkDeckId v env.now ++ "/cards/" ++ t)).length
          = cards.length := by
      simp [resolvedIds]
    rw [hlen] at hdup
    exact hdup
  · intro w hw
    simp only [successResult, List.mem_singleton] at hw
    subst hw
    rfl

/-- C9, witness: two cards sharing id `dup` collapse to one persisted
document path while `total_cards` records 2. -/
theorem duplicateIds_collapse_documents_witness :
    (validate docObj = some vDoc ∧ phase2 dupEnv vDoc = .responded dupAi ∧
      dupAi.success = some true ∧
      dupAi.flashcards = .list [cardDup1, cardDup2] ∧
      ([cardDup1, cardDup2] : List CardIn)[0]? = some cardDup1 ∧
      ([cardDup1, cardDup2] : List CardIn)[1]? = some cardDup2 ∧
      cardDup1.id = some "dup" ∧ cardDup2.id = some "dup") ∧
    ((∃ pth, ((runPipeline dupEnv docObj).batchOps.map Prod.fst)[0]? = some pth ∧
        ((runPipeline dupEnv docObj).batchOps.map Prod.fst)[1]? = some pth) ∧
      ((runPipeline dupEnv docObj).batchOps.map Prod.fst).dedup.length <
        ([cardDup1, cardDup2] : List CardIn).length ∧
      (∀ w ∈ (runPipeline dupEnv docObj).deckWrites,
        w.2.total_cards = ([cardDup1, cardDup2] : List CardIn).length)) :=
  ⟨⟨by decide, by decide, rfl, rfl, rfl, rfl, rfl, rfl⟩,
    duplicateIds_collapse_documents dupEnv docObj vDoc dupAi
      [cardDup1, cardDup2] 0 1 cardDup1 cardDup2 "dup"
      (by decide) (by decide) rfl rfl (by decide) rfl rfl rfl rfl (by decide)⟩
